import Mathlib

/-!
Verification of the server-side rendezvous/relay subsystem of
voici5986/file-transfer-go against its natural-language specification.

The Go sources are shallowly embedded: pure fragments become Lean
functions, the mutable TURN statistics and lifecycle state become explicit
state passing, fallible steps (socket binds, server close) become `Option`
oracles supplied by the environment, and Go `int64` counters become `Int`
(the counters only ever move by 1 per event, so 64-bit overflow is out of
range for any realistic trace and is not modelled).
-/

/-- Configuration of the embedded TURN server, structure `TurnServiceConfig`
in `internal/services/turn_service.go`. -/
structure TurnServiceConfig where
  port : Int
  username : String
  password : String
  realm : String
deriving Repr, DecidableEq

/-- Counters of the TURN server, structure `TurnStats` in
`internal/services/turn_service.go` (the embedded mutex guards the fields;
atomicity is made explicit here by whole-state transitions). -/
structure TurnStats where
  activeAllocations : Int
  totalAllocations : Int
  bytesTransferred : Int
  packetsTransferred : Int
  connections : Int
deriving Repr, DecidableEq

/-- Zero value of `TurnStats`, as produced by `NewTurnService`. -/
def TurnStats.initial : TurnStats := ⟨0, 0, 0, 0, 0⟩

/-- Result of `turn.GenerateAuthKey(username, realm, password)`: the library
computes an MD5 digest of the three inputs; the digest is modelled by the
input triple itself (the claims only compare keys for presence and origin,
never for byte content). -/
structure AuthKey where
  username : String
  realm : String
  password : String
deriving Repr, DecidableEq

/-- Embedding of `turn.GenerateAuthKey`. -/
def generateAuthKey (username realm password : String) : AuthKey :=
  ⟨username, realm, password⟩

/-- Embedding of `(*TurnService).authHandler` from
`internal/services/turn_service.go`: every invocation increments
`Connections`; on a username/realm match it increments
`ActiveAllocations` and `TotalAllocations` and returns the generated key
with `true`; otherwise it returns `nil, false`.  The source address
argument is unused by the source and omitted. -/
def authHandler (cfg : TurnServiceConfig) (st : TurnStats) (username realm : String) :
    TurnStats × Option AuthKey × Bool :=
  let st1 := { st with connections := st.connections + 1 }
  if username == cfg.username && realm == cfg.realm then
    let st2 := { st1 with
      activeAllocations := st1.activeAllocations + 1,
      totalAllocations := st1.totalAllocations + 1 }
    (st2, some (generateAuthKey username cfg.realm cfg.password), true)
  else
    (st1, none, false)

/-- Embedding of `(*TurnService).DecrementActiveAllocations`: decrements the
active-allocation counter only when it is strictly positive. -/
def decrementActiveAllocations (st : TurnStats) : TurnStats :=
  if st.activeAllocations > 0 then
    { st with activeAllocations := st.activeAllocations - 1 }
  else st

/-- An observable operation on the TURN statistics: an authentication
request with the offered username and realm, or a release
(`DecrementActiveAllocations`). -/
inductive TurnEvent where
  | auth (username realm : String)
  | release
deriving Repr, DecidableEq

/-- Whether the event is a release. -/
def TurnEvent.isRelease : TurnEvent → Bool
  | .release => true
  | _ => false

/-- Whether the event is an authentication request that the configured
credentials accept (the success condition of `authHandler`). -/
def isAuthSuccess (cfg : TurnServiceConfig) : TurnEvent → Bool
  | .auth u r => u == cfg.username && r == cfg.realm
  | .release => false

/-- One step of the statistics state machine. -/
def stepStats (cfg : TurnServiceConfig) (st : TurnStats) : TurnEvent → TurnStats
  | .auth u r => (authHandler cfg st u r).1
  | .release => decrementActiveAllocations st

/-- Statistics after a sequence of operations, starting from the zero
counters of a fresh service. -/
def runStats (cfg : TurnServiceConfig) (evs : List TurnEvent) : TurnStats :=
  evs.foldl (stepStats cfg) TurnStats.initial

/-- Number of successful `authHandler` invocations in a trace. -/
def succCount (cfg : TurnServiceConfig) (evs : List TurnEvent) : Int :=
  ((evs.filter (isAuthSuccess cfg)).length : Int)

/-- Number of `DecrementActiveAllocations` calls in a trace. -/
def releaseCount (evs : List TurnEvent) : Int :=
  ((evs.filter TurnEvent.isRelease).length : Int)

/-- The default TURN configuration of the repository (the documented
defaults of `loadConfig`), used as a concrete instance in witnesses. -/
def cfg0 : TurnServiceConfig := ⟨3478, "chuan", "chuan123", "localhost"⟩

/-- Lifecycle state of the TURN service, the `server`/`isRunning` fields of
structure `TurnService` (the `config` and `stats` fields are carried
separately above; `server` holds `some ()` when a `turn.Server` instance is
retained, `none` for Go `nil`). -/
structure TurnService where
  server : Option Unit
  config : TurnServiceConfig
  isRunning : Bool
deriving Repr, DecidableEq

/-- Embedding of `NewTurnService`: fresh service, not running, no server. -/
def newTurnService (cfg : TurnServiceConfig) : TurnService :=
  ⟨none, cfg, false⟩

/-- Embedding of `(*TurnService).IsRunning`. -/
def TurnService.IsRunning (ts : TurnService) : Bool := ts.isRunning

/-- Errors returned by `Start` and `Stop`, named after the Go error
messages. -/
inductive TurnError where
  | alreadyRunning
  | udpListen (e : String)
  | tcpListen (e : String)
  | newServer (e : String)
  | notRunning
  | closeFailed (e : String)
deriving Repr, DecidableEq

/-- Outcomes of the three fallible steps of `Start` (UDP bind, TCP bind,
`turn.NewServer`), supplied by the environment; `none` means the step
succeeds. -/
structure StartEnv where
  udpErr : Option String
  tcpErr : Option String
  newServerErr : Option String
deriving Repr, DecidableEq

/-- Result of `Start`: the state afterwards, the returned error, and
whether the UDP/TCP listeners bound during the call are still open when it
returns (on success both are open, owned by the created server; the
failure paths of the source close every listener they bound). -/
structure StartResult where
  service : TurnService
  error : Option TurnError
  udpOpen : Bool
  tcpOpen : Bool
deriving Repr, DecidableEq

/-- Embedding of `(*TurnService).Start` from
`internal/services/turn_service.go`, tracing its early returns: running
already, UDP bind failure (nothing to close), TCP bind failure (UDP
closed), `turn.NewServer` failure (both closed), success (server retained,
`isRunning` set). -/
def TurnService.start (ts : TurnService) (env : StartEnv) : StartResult :=
  if ts.isRunning then ⟨ts, some .alreadyRunning, false, false⟩
  else
    match env.udpErr with
    | some e => ⟨ts, some (.udpListen e), false, false⟩
    | none =>
      match env.tcpErr with
      | some e => ⟨ts, some (.tcpListen e), false, false⟩
      | none =>
        match env.newServerErr with
        | some e => ⟨ts, some (.newServer e), false, false⟩
        | none => ⟨{ ts with server := some (), isRunning := true }, none, true, true⟩

/-- Embedding of `(*TurnService).Stop`: error when not running; when a
server is retained it is closed, a close failure is returned with the
state unchanged; otherwise `isRunning` is cleared (the `server` field is
not cleared by the source). `closeErr` is the environment's outcome for
`ts.server.Close()`. -/
def TurnService.stop (ts : TurnService) (closeErr : Option String) :
    TurnService × Option TurnError :=
  if !ts.isRunning then (ts, some .notRunning)
  else
    match ts.server with
    | some _ =>
      match closeErr with
      | some e => (ts, some (.closeFailed e))
      | none => ({ ts with isRunning := false }, none)
    | none => ({ ts with isRunning := false }, none)

/-- Client-facing TURN descriptor, structure `TurnServerInfo`. -/
structure TurnServerInfo where
  urls : List String
  username : String
  credential : String
deriving Repr, DecidableEq

/-- Zero value of `TurnServerInfo`. -/
def TurnServerInfo.zero : TurnServerInfo := ⟨[], "", ""⟩

/-- Embedding of `(*TurnService).GetTurnServerInfo`: the zero descriptor
unless running, else a single URL `turn:localhost:<port>` (the host is the
hardcoded string `localhost` in the source) with the configured username
and password. -/
def TurnService.getTurnServerInfo (ts : TurnService) : TurnServerInfo :=
  if !ts.IsRunning then TurnServerInfo.zero
  else
    ⟨["turn:localhost:" ++ toString ts.config.port],
     ts.config.username, ts.config.password⟩

/-- Snapshot returned by `(*TurnService).GetStats`, structure
`TurnStatsResponse`. -/
structure TurnStatsResponse where
  isRunning : Bool
  activeAllocations : Int
  totalAllocations : Int
  bytesTransferred : Int
  packetsTransferred : Int
  connections : Int
  port : Int
  username : String
  realm : String
deriving Repr, DecidableEq

/-- Embedding of `(*TurnService).GetStats` over a statistics state. -/
def TurnService.getStats (ts : TurnService) (st : TurnStats) : TurnStatsResponse :=
  ⟨ts.IsRunning, st.activeAllocations, st.totalAllocations, st.bytesTransferred,
   st.packetsTransferred, st.connections, ts.config.port, ts.config.username,
   ts.config.realm⟩

/-- HTTP request methods used by the router and the handlers. -/
inductive HttpMethod where
  | get | post | put | del | options | head
deriving Repr, DecidableEq

/-- JSON body written by `TurnConfigHandler` (`internal/handlers`): the
`success` verdict, the optional human message, and the optional
descriptor under `data`. -/
structure ConfigEnvelope where
  success : Bool
  message : Option String
  data : Option TurnServerInfo
deriving Repr, DecidableEq

/-- Embedding of `(*Handler).TurnConfigHandler`: non-GET methods and a
nil or non-running TURN service produce `success:false` with a message;
otherwise the descriptor of `GetTurnServerInfo` is wrapped in
`{success:true, data}`. -/
def turnConfigHandler (turnService : Option TurnService) (method : HttpMethod) :
    ConfigEnvelope :=
  if method ≠ .get then ⟨false, some "方法不允许", none⟩
  else
    match turnService with
    | none => ⟨false, some "TURN服务器未启用或未运行", none⟩
    | some ts =>
      if !ts.IsRunning then ⟨false, some "TURN服务器未启用或未运行", none⟩
      else ⟨true, none, some ts.getTurnServerInfo⟩

/-- JSON body written by `TurnStatsHandler`. -/
structure StatsEnvelope where
  success : Bool
  message : Option String
  data : Option TurnStatsResponse
deriving Repr, DecidableEq

/-- Embedding of `(*Handler).TurnStatsHandler` over the handler's TURN
service pointer and the current statistics: non-GET methods and a nil
service produce `success:false`; otherwise the `GetStats` snapshot is
wrapped in `{success:true, data}`. -/
def turnStatsHandler (turnService : Option TurnService) (st : TurnStats)
    (method : HttpMethod) : StatsEnvelope :=
  if method ≠ .get then ⟨false, some "方法不允许", none⟩
  else
    match turnService with
    | none => ⟨false, some "TURN服务器未启用", none⟩
    | some ts => ⟨true, none, some (ts.getStats st)⟩

/-- An HTTP request as far as the router inspects it: method and path. -/
structure HttpRequest where
  method : HttpMethod
  path : String
deriving Repr, DecidableEq

/-- The handler a request is dispatched to. -/
inductive RouteTarget where
  | wsWebrtc | createRoom | roomInfo | turnStats | turnConfig | adminStatus | frontend
deriving Repr, DecidableEq

/-- Embedding of `setupAPIRoutes` in `cmd/router.go` together with the
catch-all `router.Handle("/*", ...)` of `setupRouter`: chi dispatches a
request to a registered method-and-literal-path pair, the TURN routes are
registered only when `config.TurnConfig.Enabled`, and everything else
falls through to the frontend handler mounted at the catch-all pattern. -/
def routeRequest (turnEnabled : Bool) (req : HttpRequest) : RouteTarget :=
  if req.path = "/api/ws/webrtc" ∧ req.method = .get then .wsWebrtc
  else if req.path = "/api/create-room" ∧ req.method = .post then .createRoom
  else if req.path = "/api/room-info" ∧ req.method = .get then .roomInfo
  else if turnEnabled ∧ req.path = "/api/turn/stats" ∧ req.method = .get then .turnStats
  else if turnEnabled ∧ req.path = "/api/turn/config" ∧ req.method = .get then .turnConfig
  else if req.path = "/api/admin/status" ∧ req.method = .get then .adminStatus
  else .frontend

/-- An HTTP response as far as the claims inspect it: status code,
Content-Type header, and — when the body is one of the JSON envelopes —
its `success` field (`none` for non-JSON bodies such as HTML pages). -/
structure HttpResponse where
  status : Nat
  contentType : String
  jsonSuccess : Option Bool
deriving Repr, DecidableEq

/-- Response of `placeholderHandler.ServeHTTP` (`internal/web`): a status
200 HTML page; no JSON envelope. -/
def placeholderResponse : HttpResponse :=
  ⟨200, "text/html; charset=utf-8", none⟩

/-- JSON body written by `CreateRoomHandler`, `WebRTCRoomStatusHandler`
and `GetRoomStatusHandler`. -/
structure RoomApiResponse where
  success : Bool
  code : Option String
  message : Option String
deriving Repr, DecidableEq

/-- Modelled from the spec: `create()` of the Room Registry (§4.A); the
WebRTC service implementation is not under src/. It returns an unused
6-character code and inserts a fresh room under it; the rejection loop
that draws candidates is abstracted to the resulting fresh code, which is
passed in by the caller's environment. The registry is modelled as the
list of live room codes. -/
def createNewRoom (reg : List String) (fresh : String) : String × List String :=
  (fresh, reg ++ [fresh])

/-- Modelled from the spec: `GetRoomStatus` (§4.B.4); the WebRTC service
implementation is not under src/. It is a read-only lookup: codes are
normalized to upper case, an unknown code reports `success:false`, a known
one reports the room state (the per-room occupancy details of §4.B.4 are
not needed by any claim and are abstracted to the success verdict). -/
def getRoomStatus (reg : List String) (code : String) : RoomApiResponse :=
  if reg.contains code.toUpper then ⟨true, some code.toUpper, none⟩
  else ⟨false, none, some "房间不存在"⟩

/-- Result of a room API handler: the JSON body it writes, the registry
afterwards, and whether the handler disconnected (hijacked or closed) the
client connection — no code path of either handler does. -/
structure RoomHandlerOutcome where
  response : RoomApiResponse
  registry : List String
  disconnected : Bool
deriving Repr, DecidableEq

/-- Embedding of `(*Handler).CreateRoomHandler`: non-POST methods are
answered with `success:false` and a message without touching the service;
POST creates a room and returns its code. -/
def createRoomHandler (method : HttpMethod) (reg : List String) (fresh : String) :
    RoomHandlerOutcome :=
  if method ≠ .post then ⟨⟨false, none, some "方法不允许"⟩, reg, false⟩
  else
    let r := createNewRoom reg fresh
    ⟨⟨true, some r.1, some "房间创建成功"⟩, r.2, false⟩

/-- Embedding of `(*Handler).WebRTCRoomStatusHandler`: non-GET methods and
an empty `code` query parameter are answered with `success:false` and a
message; otherwise the room status lookup's body is returned. The `code`
query parameter is modelled as Go's `Query().Get`, which yields the empty
string when the parameter is missing. -/
def webRTCRoomStatusHandler (method : HttpMethod) (codeParam : String)
    (reg : List String) : RoomHandlerOutcome :=
  if method ≠ .get then ⟨⟨false, none, some "方法不允许"⟩, reg, false⟩
  else if codeParam = "" then ⟨⟨false, none, some "缺少房间代码"⟩, reg, false⟩
  else ⟨getRoomStatus reg codeParam, reg, false⟩

/-!
External-directory frontend handler (`externalSpaHandler` in
`internal/web`). Filesystem paths are represented by their
slash-separated component lists: an absolute path `/a/b` is `["a", "b"]`
and the root is `[]`. The configured base directory is assumed to be an
absolute path (its `filepath.Abs` is itself), and the request's
`r.URL.Path` is represented by its components after the leading slash,
`[]` for the root path. Lexical path resolution (`filepath.Clean`, applied
by `filepath.Join`) is `cleanComps`; rendering back to the string compared
by `strings.HasPrefix` is `renderAbs`.
-/

/-- One step of `filepath.Clean` over an absolute path's components:
empty components and `.` disappear, `..` removes the previous component
(at the root it stays at the root), anything else is appended. -/
def cleanStep (acc : List String) (c : String) : List String :=
  if c = "" ∨ c = "." then acc
  else if c = ".." then acc.dropLast
  else acc ++ [c]

/-- Lexical cleaning of an absolute path given by components. -/
def cleanComps (cs : List String) : List String := cs.foldl cleanStep []

/-- Rendering of an absolute path's components to the string form used by
the handler's `strings.HasPrefix` comparison. -/
def renderAbs (cs : List String) : String :=
  "/" ++ String.intercalate "/" cs

/-- Embedding of `strings.HasPrefix(s, pre)`. Go compares byte prefixes;
for valid UTF-8 strings a byte prefix of whole strings is exactly a
character prefix, modelled over the character lists. -/
def goHasPrefix (s pre : String) : Bool :=
  pre.toList.isPrefixOf s.toList

/-- The path actually looked up: the source substitutes `index.html` when
the trimmed URL path is empty. -/
def effComps (urlComps : List String) : List String :=
  if urlComps = [] then ["index.html"] else urlComps

/-- Response of the external frontend handler, as far as the claims
inspect it. -/
inductive FrontendResponse where
  | forbidden
  | badRequest
  | notFound
  | fileContent (p : List String)
deriving Repr, DecidableEq

/-- Model of `http.ServeFile(w, r, name)` as called by the handler after a
successful stat: the standard library first rejects any request whose
`r.URL.Path` contains a `..` path element with `400 invalid URL path`
(its check also splits on backslashes, which only rejects more requests
and is not needed by backslash-free inputs); otherwise the named file is
served. -/
def serveFileModel (urlComps : List String) (p : List String) : FrontendResponse :=
  if ".." ∈ urlComps then .badRequest else .fileContent p

/-- Embedding of `(*externalSpaHandler).serveIndexHTML`: stat
`base/index.html`, 404 when missing, else serve it through
`http.ServeFile`. `fs` is the existence oracle of the read-only
filesystem. -/
def serveIndexHTMLModel (fs : List String → Bool) (base : List String)
    (urlComps : List String) : FrontendResponse :=
  if !fs (cleanComps (base ++ ["index.html"])) then .notFound
  else serveFileModel urlComps (cleanComps (base ++ ["index.html"]))

/-- Embedding of `(*externalSpaHandler).ServeHTTP`: join the base
directory with the trimmed URL path, 403 when the rendered absolute
target does not have the rendered absolute base as a string prefix, fall
back to `index.html` when the target does not exist, else serve the
target through `http.ServeFile`. -/
def externalServeHTTP (fs : List String → Bool) (base : List String)
    (urlComps : List String) : FrontendResponse :=
  if !goHasPrefix (renderAbs (cleanComps (base ++ effComps urlComps)))
        (renderAbs (cleanComps base)) then
    .forbidden
  else if !fs (cleanComps (base ++ effComps urlComps)) then
    serveIndexHTMLModel fs base urlComps
  else
    serveFileModel urlComps (cleanComps (base ++ effComps urlComps))

/-- A concrete filesystem for the C3 counterexample: exactly the file
`/srv/app2/x` exists. -/
def fs3 : List String → Bool := fun p => p == ["srv", "app2", "x"]

/-!
Configuration loading (`loadEnvFile`, `loadConfig` in the configuration
file of cmd, src/unnamed/part_000). The process environment is modelled
with Go's observable semantics: `os.Getenv` returns the empty string for
an unset variable, and every check the source makes is a comparison with
the empty string, so an environment is a list of key/value pairs and
lookup of an absent key yields `""`. Go's `strings.TrimSpace` trims
Unicode whitespace; `String.trim` trims ASCII whitespace, which agrees on
every input the claims use.
-/

/-- A process environment. -/
abbrev Env := List (String × String)

/-- Embedding of `os.Getenv`: first binding wins, absent keys read as the
empty string. -/
def getEnv (env : Env) (k : String) : String :=
  match env.find? (fun p => p.1 == k) with
  | some p => p.2
  | none => ""

/-- Embedding of `os.Setenv`: the new binding shadows any older one. -/
def setEnv (env : Env) (k v : String) : Env := (k, v) :: env

/-- The double-quote character as a string. -/
def dquote : String := "\""

/-- The single-quote character as a string. -/
def squote : String := String.singleton (Char.ofNat 39)

/-- Embedding of `strings.HasSuffix`, over character lists like
`goHasPrefix`. -/
def goHasSuffix (s suf : String) : Bool :=
  suf.toList.isSuffixOf s.toList

/-- Whether the character counts as whitespace for `strings.TrimSpace`.
The ASCII whitespace characters are modelled; `TrimSpace` additionally
trims rarer Unicode spaces, which no claim exercises. -/
def isSpaceChar (c : Char) : Bool :=
  c = ' ' ∨ c = Char.ofNat 9 ∨ c = Char.ofNat 10 ∨ c = Char.ofNat 11
    ∨ c = Char.ofNat 12 ∨ c = Char.ofNat 13

/-- Embedding of `strings.TrimSpace`: whitespace removed from both
ends. -/
def goTrim (s : String) : String :=
  ⟨((s.toList.dropWhile isSpaceChar).reverse.dropWhile isSpaceChar).reverse⟩

/-- Splitting a character list at its first `=`. -/
def splitFirstEq : List Char → Option (List Char × List Char)
  | [] => none
  | c :: cs =>
    if c = '=' then some ([], cs)
    else
      match splitFirstEq cs with
      | none => none
      | some ab => some (c :: ab.1, ab.2)

/-- Embedding of `strings.SplitN(line, "=", 2)` restricted to the case the
source acts on: `none` when the line has no `=` (Go returns a one-element
slice, which the source skips), else the text before the first `=` and
everything after it. -/
def splitEq2 (s : String) : Option (String × String) :=
  match splitFirstEq s.toList with
  | none => none
  | some ab => some (⟨ab.1⟩, ⟨ab.2⟩)

/-- Whether the value carries a matching pair of surrounding quotes, the
condition of the quote-stripping branch of `loadEnvFile`. -/
def hasOuterQuotes (v : String) : Bool :=
  (goHasPrefix v dquote && goHasSuffix v dquote)
    || (goHasPrefix v squote && goHasSuffix v squote)

/-- The claim's reading of the stripping: one pair of matching surrounding
quotes removed when present (`value[1 : len(value)-1]` in the source;
the quotes are ASCII, so dropping the first and last byte is dropping the
first and last character). -/
def stripOuterQuotes (v : String) : String :=
  if hasOuterQuotes v then ⟨(v.toList.drop 1).dropLast⟩ else v

/-- The key/value part of one `loadEnvFile` iteration, after trimming:
strip surrounding quotes, then set the variable only when it reads empty.
Returns `none` where the Go code panics: when the trimmed value is a
single quote character, `HasPrefix` and `HasSuffix` both hold and the
slice `value[1:0]` is out of range. -/
def applyEnvPair (env : Env) (key value : String) : Option Env :=
  if hasOuterQuotes value then
    if value.length = 1 then none
    else
      some (if getEnv env key = "" then
              setEnv env key ⟨(value.toList.drop 1).dropLast⟩
            else env)
  else
    some (if getEnv env key = "" then setEnv env key value else env)

/-- Embedding of one iteration of the `loadEnvFile` scanner loop: trim the
line, skip empty and `#` lines, skip lines without `=`, else process the
trimmed key/value pair. -/
def processEnvLine (env : Env) (rawLine : String) : Option Env :=
  let line := goTrim rawLine
  if line = "" ∨ goHasPrefix line "#" then some env
  else
    match splitEq2 line with
    | none => some env
    | some kv => applyEnvPair env (goTrim kv.1) (goTrim kv.2)

/-- Embedding of `loadEnvFile` over the dotfile's lines; `none` when an
iteration panics. -/
def loadEnvLines (env : Env) : List String → Option Env
  | [] => some env
  | l :: ls =>
    match processEnvLine env l with
    | none => none
    | some env2 => loadEnvLines env2 ls

/-- Decimal digits to a number; `none` on any non-digit. -/
def decDigits (cs : List Char) : Option Nat :=
  cs.foldl
    (fun acc c =>
      match acc with
      | none => none
      | some n => if c.isDigit then some (n * 10 + (c.toNat - 48)) else none)
    (some 0)

/-- Embedding of `strconv.Atoi` on a 64-bit platform: optional sign,
at least one digit, nothing else, result within the int64 range. -/
def goAtoi (s : String) : Option Int :=
  match s.toList with
  | [] => none
  | c :: rest =>
    let signDigits : Bool × List Char :=
      if c = '-' then (true, rest)
      else if c = '+' then (false, rest)
      else (false, c :: rest)
    if signDigits.2 = [] then none
    else
      match decDigits signDigits.2 with
      | none => none
      | some n =>
        let v : Int := if signDigits.1 then -(n : Int) else (n : Int)
        if v < -(2 ^ 63) ∨ v > 2 ^ 63 - 1 then none else some v

/-- TURN part of the application configuration (`TurnConfig` in
src/unnamed/part_000). -/
structure TurnConfig where
  enabled : Bool
  port : Int
  username : String
  password : String
  realm : String
deriving Repr, DecidableEq

/-- Application configuration (`Config` in src/unnamed/part_000). -/
structure Config where
  port : Int
  frontendDir : String
  turnConfig : TurnConfig
deriving Repr, DecidableEq

/-- Embedding of `loadConfig` (src/unnamed/part_000) after the dotfile has
been merged into the environment: each key falls back to its built-in
default when it reads empty, the numeric keys also fall back when
`strconv.Atoi` fails, and `TURN_ENABLED` enables TURN exactly on the
string `true`. Flag parsing is modelled as a run without CLI flags, so
the `-port` flag keeps its default, the environment-derived port. -/
def loadConfig (env : Env) : Config :=
  let defaultPort : Int :=
    if getEnv env "PORT" ≠ "" then
      match goAtoi (getEnv env "PORT") with
      | some p => p
      | none => 8080
    else 8080
  let turnEnabled := getEnv env "TURN_ENABLED" == "true"
  let turnPort : Int :=
    if getEnv env "TURN_PORT" ≠ "" then
      match goAtoi (getEnv env "TURN_PORT") with
      | some p => p
      | none => 3478
    else 3478
  let turnUsername :=
    if getEnv env "TURN_USERNAME" = "" then "chuan" else getEnv env "TURN_USERNAME"
  let turnPassword :=
    if getEnv env "TURN_PASSWORD" = "" then "chuan123" else getEnv env "TURN_PASSWORD"
  let turnRealm :=
    if getEnv env "TURN_REALM" = "" then "localhost" else getEnv env "TURN_REALM"
  ⟨defaultPort, getEnv env "FRONTEND_DIR",
   ⟨turnEnabled, turnPort, turnUsername, turnPassword, turnRealm⟩⟩

/-- The whole configuration pipeline: merge the dotfile lines into the
initial environment (`none` when `loadEnvFile` panics), then load the
configuration from the result. -/
def loadConfigWithDotfile (env : Env) (dotfileLines : List String) : Option Config :=
  (loadEnvLines env dotfileLines).map loadConfig

/-! Helper lemmas shared by several claims. -/

/-- The active-allocation change of one `authHandler` call. -/
theorem authHandler_active (cfg : TurnServiceConfig) (st : TurnStats) (u r : String) :
    ((authHandler cfg st u r).1).activeAllocations
      = st.activeAllocations
        + (if (u == cfg.username && r == cfg.realm) = true then 1 else 0) := by
  by_cases h : (u == cfg.username && r == cfg.realm) = true
  · simp [authHandler, h]
  · simp only [Bool.not_eq_true] at h
    simp [authHandler, h]

/-- Appending one event to a trace: successful-authentication count. -/
theorem succCount_append (cfg : TurnServiceConfig) (l : List TurnEvent) (e : TurnEvent) :
    succCount cfg (l ++ [e])
      = succCount cfg l + (if isAuthSuccess cfg e = true then (1 : Int) else 0) := by
  by_cases hfe : isAuthSuccess cfg e = true
  · simp [succCount, List.filter_append, hfe]
  · simp only [Bool.not_eq_true] at hfe
    simp [succCount, List.filter_append, hfe]

/-- Appending one event to a trace: release count. -/
theorem releaseCount_append (l : List TurnEvent) (e : TurnEvent) :
    releaseCount (l ++ [e])
      = releaseCount l + (if e.isRelease = true then (1 : Int) else 0) := by
  by_cases hfe : e.isRelease = true
  · simp [releaseCount, List.filter_append, hfe]
  · simp only [Bool.not_eq_true] at hfe
    simp [releaseCount, List.filter_append, hfe]

/-- Appending one event to a trace: the statistics step once more. -/
theorem runStats_append (cfg : TurnServiceConfig) (l : List TurnEvent) (e : TurnEvent) :
    runStats cfg (l ++ [e]) = stepStats cfg (runStats cfg l) e := by
  simp [runStats, List.foldl_append]

/-- The active-allocation change of one decrement. -/
theorem decrement_active (st : TurnStats) :
    (decrementActiveAllocations st).activeAllocations
      = if st.activeAllocations > 0 then st.activeAllocations - 1
        else st.activeAllocations := by
  by_cases hp : st.activeAllocations > 0
  · simp [decrementActiveAllocations, hp]
  · simp [decrementActiveAllocations, hp]

/-- C1. The TURN authentication callback returns a credential key together
with `success = true` exactly when the offered username and realm equal
the configured ones; in every other case it returns no key and
`success = false`. -/
theorem C1_authHandler_key_iff (cfg : TurnServiceConfig) (st : TurnStats) (u r : String) :
    ((authHandler cfg st u r).2.2 = true ↔ (u = cfg.username ∧ r = cfg.realm))
    ∧ (u = cfg.username ∧ r = cfg.realm →
        (authHandler cfg st u r).2
          = (some (generateAuthKey u cfg.realm cfg.password), true))
    ∧ (¬(u = cfg.username ∧ r = cfg.realm) →
        (authHandler cfg st u r).2 = (none, false)) := by
  by_cases h : u = cfg.username ∧ r = cfg.realm
  · obtain ⟨h1, h2⟩ := h
    subst h1; subst h2
    simp [authHandler]
  · have hb : (u == cfg.username && r == cfg.realm) = false := by
      rcases not_and_or.mp h with h1 | h1 <;> simp [h1]
    simp [authHandler, hb, h]

/-- Witness for C1 at the default configuration: the configured user in
the configured realm is accepted with its key, a different user is
rejected with no key. -/
theorem C1_witness :
    (("chuan" = cfg0.username ∧ "localhost" = cfg0.realm)
      ∧ (authHandler cfg0 TurnStats.initial "chuan" "localhost").2
          = (some (generateAuthKey "chuan" cfg0.realm cfg0.password), true))
    ∧ (¬("bob" = cfg0.username ∧ "localhost" = cfg0.realm)
      ∧ (authHandler cfg0 TurnStats.initial "bob" "localhost").2 = (none, false)) :=
  ⟨⟨by decide,
    (C1_authHandler_key_iff cfg0 TurnStats.initial "chuan" "localhost").2.1 (by decide)⟩,
   ⟨by decide,
    (C1_authHandler_key_iff cfg0 TurnStats.initial "bob" "localhost").2.2 (by decide)⟩⟩

/-- C9. The active-allocation counter never becomes negative on any trace,
and `DecrementActiveAllocations` leaves a zero counter unchanged. -/
theorem C9_active_nonneg :
    (∀ (cfg : TurnServiceConfig) (evs : List TurnEvent),
        0 ≤ (runStats cfg evs).activeAllocations)
    ∧ (∀ st : TurnStats, st.activeAllocations = 0 → decrementActiveAllocations st = st) := by
  constructor
  · intro cfg evs
    have key : ∀ (l : List TurnEvent) (st : TurnStats), 0 ≤ st.activeAllocations →
        0 ≤ (l.foldl (stepStats cfg) st).activeAllocations := by
      intro l
      induction l with
      | nil => intro st h; simpa using h
      | cons e tl ih =>
        intro st h
        simp only [List.foldl_cons]
        refine ih _ ?_
        cases e with
        | auth u r =>
          simp only [stepStats]
          rw [authHandler_active]
          split <;> omega
        | release =>
          simp only [stepStats]
          rw [decrement_active]
          split <;> omega
    exact key evs TurnStats.initial (by simp [TurnStats.initial])
  · intro st h
    simp [decrementActiveAllocations, h]

/-- Witness for C9: a decrement on a zero active-allocation state is the
identity. -/
theorem C9_witness :
    (⟨0, 5, 0, 0, 3⟩ : TurnStats).activeAllocations = 0
    ∧ decrementActiveAllocations ⟨0, 5, 0, 0, 3⟩ = ⟨0, 5, 0, 0, 3⟩ :=
  ⟨rfl, C9_active_nonneg.2 ⟨0, 5, 0, 0, 3⟩ rfl⟩

/-- Counterexample to C2 as stated: after the one-event trace consisting
of a single `DecrementActiveAllocations`, the counter is 0 while
(successes − decrements) is −1, because the source skips the decrement at
zero. -/
theorem C2_counterexample :
    ¬ ((runStats cfg0 [TurnEvent.release]).activeAllocations
        = succCount cfg0 [TurnEvent.release] - releaseCount [TurnEvent.release]) := by
  decide

/-- C2 (amended). Along any trace in which no prefix has more decrements
than authentication successes, the active-allocation counter equals
successes minus decrements. -/
theorem C2_amended (cfg : TurnServiceConfig) (evs : List TurnEvent)
    (h : ∀ p, p <+: evs → releaseCount p ≤ succCount cfg p) :
    (runStats cfg evs).activeAllocations = succCount cfg evs - releaseCount evs := by
  induction evs using List.reverseRecOn with
  | nil => simp [runStats, TurnStats.initial, succCount, releaseCount]
  | append_singleton l e ih =>
    have hl := ih (fun p hp => h p (hp.trans (List.prefix_append l [e])))
    rw [runStats_append, succCount_append, releaseCount_append]
    cases e with
    | auth u r =>
      simp only [stepStats]
      rw [authHandler_active, hl]
      simp [isAuthSuccess, TurnEvent.isRelease]
      split <;> omega
    | release =>
      have hfull := h (l ++ [TurnEvent.release]) (List.prefix_refl _)
      rw [releaseCount_append, succCount_append] at hfull
      simp [isAuthSuccess, TurnEvent.isRelease] at hfull
      have hpos : 0 < (runStats cfg l).activeAllocations := by
        rw [hl]; omega
      simp only [stepStats]
      rw [decrement_active, if_pos hpos, hl]
      simp [isAuthSuccess, TurnEvent.isRelease]
      omega

/-- Witness for C2 (amended): one successful authentication followed by
one release, a trace whose prefixes all satisfy the side condition, ends
with counter 1 − 1 = 0. -/
theorem C2_witness :
    (runStats cfg0 [TurnEvent.auth "chuan" "localhost", TurnEvent.release]).activeAllocations
      = succCount cfg0 [TurnEvent.auth "chuan" "localhost", TurnEvent.release]
        - releaseCount [TurnEvent.auth "chuan" "localhost", TurnEvent.release] :=
  C2_amended cfg0 [TurnEvent.auth "chuan" "localhost", TurnEvent.release] (by
    intro p hp
    obtain ⟨t, ht⟩ := hp
    rcases p with _ | ⟨a, _ | ⟨b, p2⟩⟩
    · decide
    · simp only [List.cons_append, List.nil_append] at ht
      injection ht with h1 h2
      subst h1
      decide
    · simp only [List.cons_append] at ht
      injection ht with h1 h2
      injection h2 with h3 h4
      have h5 : p2 = [] := by
        have := congrArg List.length h4
        simp at this
        simpa using this.1
      subst h1; subst h3; subst h5
      decide)

/-- C6. `Start` on a running service fails and changes nothing; `Stop` on
a stopped service fails and changes nothing; and a failing `Start` from
the stopped state is not a partial start: the state is unchanged,
`isRunning` stays false, no server is retained and no listener bound
during the call is left open. -/
theorem C6_start_stop (ts : TurnService) (env : StartEnv) (closeErr : Option String) :
    (ts.isRunning = true →
      ((ts.start env).error = some TurnError.alreadyRunning ∧ (ts.start env).service = ts))
    ∧ (ts.isRunning = false →
      ((ts.stop closeErr).2 = some TurnError.notRunning ∧ (ts.stop closeErr).1 = ts))
    ∧ (ts.isRunning = false → (ts.start env).error.isSome = true →
      ((ts.start env).service = ts ∧ (ts.start env).service.isRunning = false
        ∧ (ts.start env).service.server = ts.server
        ∧ (ts.start env).udpOpen = false ∧ (ts.start env).tcpOpen = false)) := by
  refine ⟨?_, ?_, ?_⟩
  · intro hrun
    simp [TurnService.start, hrun]
  · intro hstop
    simp [TurnService.stop, hstop]
  · intro hrun herr
    cases hu : env.udpErr with
    | some e => simp [TurnService.start, hrun, hu]
    | none =>
      cases htc : env.tcpErr with
      | some e => simp [TurnService.start, hrun, hu, htc]
      | none =>
        cases hns : env.newServerErr with
        | some e => simp [TurnService.start, hrun, hu, htc, hns]
        | none =>
          exfalso
          simp [TurnService.start, hrun, hu, htc, hns] at herr

/-- Witness for C6: a running service rejects `Start`, a stopped one
rejects `Stop`, and a UDP bind failure leaves the stopped state intact. -/
theorem C6_witness :
    ((TurnService.start ⟨some (), cfg0, true⟩ ⟨none, none, none⟩).error
        = some TurnError.alreadyRunning)
    ∧ ((TurnService.stop ⟨none, cfg0, false⟩ none).2 = some TurnError.notRunning)
    ∧ ((TurnService.start ⟨none, cfg0, false⟩ ⟨some "bind failed", none, none⟩).service
        = ⟨none, cfg0, false⟩
      ∧ (TurnService.start ⟨none, cfg0, false⟩ ⟨some "bind failed", none, none⟩).udpOpen
          = false) :=
  ⟨((C6_start_stop ⟨some (), cfg0, true⟩ ⟨none, none, none⟩ none).1 rfl).1,
   ((C6_start_stop ⟨none, cfg0, false⟩ ⟨none, none, none⟩ none).2.1 rfl).1,
   ⟨((C6_start_stop ⟨none, cfg0, false⟩ ⟨some "bind failed", none, none⟩ none).2.2
        rfl (by decide)).1,
    ((C6_start_stop ⟨none, cfg0, false⟩ ⟨some "bind failed", none, none⟩ none).2.2
        rfl (by decide)).2.2.2.1⟩⟩

/-- C10. When `Stop` is called on a running service holding a server and
closing the server fails, `Stop` returns the close error, the state is
unchanged, `IsRunning` still reports true, and a subsequent `Stop` is not
rejected as not-running. -/
theorem C10_stop_close_error (ts : TurnService) (e : String) (c2 : Option String)
    (hrun : ts.isRunning = true) (hsrv : ts.server = some ()) :
    (ts.stop (some e)).2 = some (TurnError.closeFailed e)
    ∧ (ts.stop (some e)).1 = ts
    ∧ ((ts.stop (some e)).1).IsRunning = true
    ∧ ((ts.stop (some e)).1.stop c2).2 ≠ some TurnError.notRunning := by
  have h1 : ts.stop (some e) = (ts, some (TurnError.closeFailed e)) := by
    simp [TurnService.stop, hrun, hsrv]
  refine ⟨by rw [h1], by rw [h1], ?_, ?_⟩
  · rw [h1]
    simpa [TurnService.IsRunning] using hrun
  · rw [h1]
    cases c2 with
    | some e2 => simp [TurnService.stop, hrun, hsrv]
    | none => simp [TurnService.stop, hrun, hsrv]

/-- Witness for C10: a running service whose close fails with a concrete
error keeps its state and error-reports the failure. -/
theorem C10_witness :
    (TurnService.stop ⟨some (), cfg0, true⟩ (some "boom")).2
        = some (TurnError.closeFailed "boom")
    ∧ (TurnService.stop ⟨some (), cfg0, true⟩ (some "boom")).1 = ⟨some (), cfg0, true⟩
    ∧ ((TurnService.stop ⟨some (), cfg0, true⟩ (some "boom")).1.stop none).2
        ≠ some TurnError.notRunning :=
  ⟨(C10_stop_close_error ⟨some (), cfg0, true⟩ "boom" none rfl rfl).1,
   (C10_stop_close_error ⟨some (), cfg0, true⟩ "boom" none rfl rfl).2.1,
   (C10_stop_close_error ⟨some (), cfg0, true⟩ "boom" none rfl rfl).2.2.2⟩

/-- C4. `GetTurnServerInfo` is the zero descriptor when not running and a
single-URL `turn:localhost:<configured port>` descriptor with the
configured username and password when running; for a GET request,
`TurnConfigHandler` wraps exactly that descriptor in
`{success:true, data}` when running and answers `success:false` when the
service is not running or absent. -/
theorem C4_turn_descriptor (ts : TurnService) :
    (ts.IsRunning = false → ts.getTurnServerInfo = TurnServerInfo.zero)
    ∧ (ts.IsRunning = true →
        ts.getTurnServerInfo
          = ⟨["turn:localhost:" ++ toString ts.config.port],
             ts.config.username, ts.config.password⟩)
    ∧ (ts.IsRunning = true →
        turnConfigHandler (some ts) HttpMethod.get
          = ⟨true, none, some ts.getTurnServerInfo⟩)
    ∧ (ts.IsRunning = false →
        (turnConfigHandler (some ts) HttpMethod.get).success = false)
    ∧ (turnConfigHandler none HttpMethod.get).success = false := by
  refine ⟨?_, ?_, ?_, ?_, by decide⟩
  · intro h
    simp [TurnService.getTurnServerInfo, h]
  · intro h
    simp [TurnService.getTurnServerInfo, h]
  · intro h
    simp [turnConfigHandler, h]
  · intro h
    simp [turnConfigHandler, h]

/-- Witness for C4: the default configuration running on port 3478 yields
the documented descriptor wrapped in a success envelope, and a stopped
service yields the zero descriptor. -/
theorem C4_witness :
    (TurnService.getTurnServerInfo ⟨some (), cfg0, true⟩
        = ⟨["turn:localhost:3478"], "chuan", "chuan123"⟩)
    ∧ (turnConfigHandler (some ⟨some (), cfg0, true⟩) HttpMethod.get
        = ⟨true, none, some (TurnService.getTurnServerInfo ⟨some (), cfg0, true⟩)⟩)
    ∧ (TurnService.getTurnServerInfo ⟨none, cfg0, false⟩ = TurnServerInfo.zero) :=
  ⟨by
    have h := (C4_turn_descriptor ⟨some (), cfg0, true⟩).2.1 rfl
    simpa using h,
   (C4_turn_descriptor ⟨some (), cfg0, true⟩).2.2.1 rfl,
   (C4_turn_descriptor ⟨none, cfg0, false⟩).1 rfl⟩

/-- C7. A non-POST request to `CreateRoomHandler` and a request to
`WebRTCRoomStatusHandler` with an empty or missing `code` parameter are
both answered with a JSON body carrying `success:false` and a message,
leave the room registry unchanged, and do not disconnect the client. -/
theorem C7_room_handlers (method : HttpMethod) (reg : List String)
    (fresh codeParam : String) :
    (method ≠ HttpMethod.post →
      ((createRoomHandler method reg fresh).response.success = false
        ∧ ((createRoomHandler method reg fresh).response.message).isSome = true
        ∧ (createRoomHandler method reg fresh).registry = reg
        ∧ (createRoomHandler method reg fresh).disconnected = false))
    ∧ (codeParam = "" →
      ((webRTCRoomStatusHandler method codeParam reg).response.success = false
        ∧ ((webRTCRoomStatusHandler method codeParam reg).response.message).isSome = true
        ∧ (webRTCRoomStatusHandler method codeParam reg).registry = reg
        ∧ (webRTCRoomStatusHandler method codeParam reg).disconnected = false)) := by
  constructor
  · intro h
    simp [createRoomHandler, h]
  · intro h
    by_cases hm : method = HttpMethod.get
    · subst hm
      simp [webRTCRoomStatusHandler, h]
    · simp [webRTCRoomStatusHandler, hm, h]

/-- Witness for C7: a GET to the create endpoint and a GET for status
with an empty code are rejected without touching a nonempty registry. -/
theorem C7_witness :
    ((createRoomHandler HttpMethod.get ["A2B3C4"] "Z9Y8X7").response.success = false
      ∧ (createRoomHandler HttpMethod.get ["A2B3C4"] "Z9Y8X7").registry = ["A2B3C4"])
    ∧ ((webRTCRoomStatusHandler HttpMethod.get "" ["A2B3C4"]).response.success = false
      ∧ (webRTCRoomStatusHandler HttpMethod.get "" ["A2B3C4"]).registry = ["A2B3C4"]) :=
  ⟨⟨((C7_room_handlers HttpMethod.get ["A2B3C4"] "Z9Y8X7" "").1 (by decide)).1,
    ((C7_room_handlers HttpMethod.get ["A2B3C4"] "Z9Y8X7" "").1 (by decide)).2.2.1⟩,
   ⟨((C7_room_handlers HttpMethod.get ["A2B3C4"] "Z9Y8X7" "").2 rfl).1,
    ((C7_room_handlers HttpMethod.get ["A2B3C4"] "Z9Y8X7" "").2 rfl).2.2.1⟩⟩

/-- Counterexample to C5 as stated: with TURN disabled, a GET to
`/api/turn/stats` is dispatched to the frontend catch-all handler, whose
response (here the embedded placeholder page) is an HTML body, not an
`application/json` body with `success:false`. -/
theorem C5_counterexample :
    routeRequest false ⟨HttpMethod.get, "/api/turn/stats"⟩ = RouteTarget.frontend
    ∧ placeholderResponse.contentType ≠ "application/json"
    ∧ placeholderResponse.jsonSuccess = none := by
  decide

/-- C5 (amended). While TURN is disabled the `/api/turn/stats` route is
not registered, so any request for it falls through to the frontend
catch-all handler (an HTML-serving handler); the `success:false` JSON
verdict exists only in `TurnStatsHandler` itself, which chi dispatches to
solely when TURN is enabled, and which produces it when its TURN service
pointer is nil. -/
theorem C5_amended (method : HttpMethod) :
    routeRequest false ⟨method, "/api/turn/stats"⟩ = RouteTarget.frontend
    ∧ routeRequest true ⟨HttpMethod.get, "/api/turn/stats"⟩ = RouteTarget.turnStats
    ∧ (turnStatsHandler none TurnStats.initial HttpMethod.get).success = false
    ∧ ((turnStatsHandler none TurnStats.initial HttpMethod.get).message).isSome = true
    ∧ placeholderResponse.contentType = "text/html; charset=utf-8" := by
  refine ⟨?_, by decide, by decide, by decide, rfl⟩
  cases method <;> decide

/-- Cleaning walks over already-clean leading components by appending
them. -/
theorem foldl_cleanStep_good (base : List String)
    (hbase : ∀ c ∈ base, c ≠ "" ∧ c ≠ "." ∧ c ≠ "..") (acc : List String) :
    base.foldl cleanStep acc = acc ++ base := by
  induction base generalizing acc with
  | nil => simp
  | cons b bs ih =>
    have hb := hbase b (List.mem_cons_self b bs)
    have hstep : cleanStep acc b = acc ++ [b] := by
      simp [cleanStep, hb.1, hb.2.1, hb.2.2]
    simp only [List.foldl_cons, hstep]
    rw [ih (fun c hc => hbase c (List.mem_cons_of_mem b hc))]
    simp

/-- Cleaning a dot-dot-free tail never pops: it appends the tail with the
trivial components dropped. -/
theorem foldl_cleanStep_nodot (xs : List String) (hnd : ".." ∉ xs) (acc : List String) :
    xs.foldl cleanStep acc = acc ++ xs.filter (fun c => !(c == "" || c == ".")) := by
  induction xs generalizing acc with
  | nil => simp
  | cons x xs ih =>
    have hx : x ≠ ".." := fun h => hnd (h ▸ List.mem_cons_self x xs)
    have hxs : ".." ∉ xs := fun h => hnd (List.mem_cons_of_mem x h)
    by_cases hsk : x = "" ∨ x = "."
    · have hstep : cleanStep acc x = acc := by
        simp [cleanStep, hsk]
      have hp : (!(x == "" || x == ".")) = false := by
        rcases hsk with h | h <;> simp [h]
      simp only [List.foldl_cons, hstep, List.filter_cons, hp]
      simpa using ih hxs acc
    · push_neg at hsk
      have hstep : cleanStep acc x = acc ++ [x] := by
        simp [cleanStep, hsk.1, hsk.2, hx]
      have hp : (!(x == "" || x == ".")) = true := by
        simp [hsk.1, hsk.2]
      simp only [List.foldl_cons, hstep, List.filter_cons, hp]
      rw [ih hxs (acc ++ [x])]
      simp

/-- Joining under an already-clean absolute base. -/
theorem cleanComps_append_base (base xs : List String)
    (hbase : ∀ c ∈ base, c ≠ "" ∧ c ≠ "." ∧ c ≠ "..") :
    cleanComps (base ++ xs) = xs.foldl cleanStep base := by
  have h0 : base.foldl cleanStep [] = base := by
    simpa using foldl_cleanStep_good base hbase []
  simp [cleanComps, List.foldl_append, h0]

/-- Every file-content response of the external handler required a
dot-dot-free URL path and names either the joined target or the SPA
fallback `base/index.html`. -/
theorem externalServeHTTP_fileContent (fs : List String → Bool)
    (base urlComps p : List String)
    (hp : externalServeHTTP fs base urlComps = FrontendResponse.fileContent p) :
    ".." ∉ urlComps
    ∧ (p = cleanComps (base ++ effComps urlComps)
        ∨ p = cleanComps (base ++ ["index.html"])) := by
  by_cases hdd : ".." ∈ urlComps
  · exfalso
    unfold externalServeHTTP serveIndexHTMLModel serveFileModel at hp
    simp only [hdd, if_true] at hp
    split at hp
    · exact FrontendResponse.noConfusion hp
    · split at hp
      · split at hp
        · exact FrontendResponse.noConfusion hp
        · exact FrontendResponse.noConfusion hp
      · exact FrontendResponse.noConfusion hp
  · refine ⟨hdd, ?_⟩
    unfold externalServeHTTP serveIndexHTMLModel serveFileModel at hp
    simp only [hdd, if_false] at hp
    split at hp
    · simp at hp
    · split at hp
      · split at hp
        · simp at hp
        · right
          simpa using hp.symm
      · left
        simpa using hp.symm

/-- C3 (amended). With a clean absolute base directory: whenever the
requested path resolves outside the base, the external frontend handler
serves no file content, answering 403 when the string-prefix guard
catches it and otherwise 400 (`http.ServeFile` rejects dot-dot URL
paths) or 404; and every file it does serve resolves inside the base. -/
theorem C3_amended (fs : List String → Bool) (base urlComps : List String)
    (hbase : ∀ c ∈ base, c ≠ "" ∧ c ≠ "." ∧ c ≠ "..") :
    (¬ base <+: cleanComps (base ++ effComps urlComps) →
      ((∀ p, externalServeHTTP fs base urlComps ≠ FrontendResponse.fileContent p)
        ∧ (externalServeHTTP fs base urlComps = FrontendResponse.forbidden
          ∨ externalServeHTTP fs base urlComps = FrontendResponse.badRequest
          ∨ externalServeHTTP fs base urlComps = FrontendResponse.notFound)))
    ∧ (∀ p, externalServeHTTP fs base urlComps = FrontendResponse.fileContent p →
        base <+: p) := by
  have hwithin : ∀ xs : List String, ".." ∉ xs →
      base <+: cleanComps (base ++ xs) := by
    intro xs hnd
    rw [cleanComps_append_base base xs hbase, foldl_cleanStep_nodot xs hnd base]
    exact List.prefix_append _ _
  have hndEff : ".." ∉ urlComps → ".." ∉ effComps urlComps := by
    intro hnd
    by_cases hu : urlComps = []
    · subst hu
      simp [effComps]
    · simpa [effComps, hu] using hnd
  constructor
  · intro hesc
    have hne : ∀ p,
        externalServeHTTP fs base urlComps ≠ FrontendResponse.fileContent p := by
      intro p hp
      obtain ⟨hdd, _⟩ := externalServeHTTP_fileContent fs base urlComps p hp
      exact hesc (hwithin _ (hndEff hdd))
    refine ⟨hne, ?_⟩
    cases hr : externalServeHTTP fs base urlComps with
    | forbidden => exact Or.inl rfl
    | badRequest => exact Or.inr (Or.inl rfl)
    | notFound => exact Or.inr (Or.inr rfl)
    | fileContent p => exact absurd hr (hne p)
  · intro p hp
    obtain ⟨hdd, hcase⟩ := externalServeHTTP_fileContent fs base urlComps p hp
    rcases hcase with h | h
    · rw [h]
      exact hwithin _ (hndEff hdd)
    · rw [h]
      exact hwithin _ (by decide)

/-- Counterexample to C3 as stated: with base `/srv/app` and request path
`/../app2/x`, the target resolves to `/srv/app2/x`, outside the base, yet
the handler does not answer 403 — the string-prefix guard accepts
`/srv/app2/x` because `/srv/app` is a string prefix of it, and the
request is then refused as 400 by `http.ServeFile`, not 403. -/
theorem C3_counterexample :
    ¬ ((["srv", "app"] : List String)
        <+: cleanComps (["srv", "app"] ++ effComps ["..", "app2", "x"]))
    ∧ externalServeHTTP fs3 ["srv", "app"] ["..", "app2", "x"]
        ≠ FrontendResponse.forbidden
    ∧ externalServeHTTP fs3 ["srv", "app"] ["..", "app2", "x"]
        = FrontendResponse.badRequest := by
  decide

/-- Witness for C3 (amended) at the counterexample's configuration: the
base is clean, and every served file stays under it. -/
theorem C3_witness :
    (∀ c ∈ (["srv", "app"] : List String), c ≠ "" ∧ c ≠ "." ∧ c ≠ "..")
    ∧ (∀ p, externalServeHTTP fs3 ["srv", "app"] ["..", "app2", "x"]
          = FrontendResponse.fileContent p → ["srv", "app"] <+: p) :=
  ⟨by decide, (C3_amended fs3 ["srv", "app"] ["..", "app2", "x"] (by decide)).2⟩

/-- Reading back the environment variable just set. -/
theorem getEnv_setEnv_same (env : Env) (k v : String) :
    getEnv (setEnv env k v) k = v := by
  simp [getEnv, setEnv, List.find?]

/-- Setting one variable leaves every other variable unchanged. -/
theorem getEnv_setEnv_other (env : Env) (k k2 v : String) (hk : k ≠ k2) :
    getEnv (setEnv env k v) k2 = getEnv env k2 := by
  have hb : (k == k2) = false := by
    simp [hk]
  simp [getEnv, setEnv, List.find?, hb]

/-- A `loadEnvFile` pair step never changes a variable that already reads
nonempty. -/
theorem applyEnvPair_preserve (env env2 : Env) (k0 v k : String)
    (hset : getEnv env k ≠ "") (h : applyEnvPair env k0 v = some env2) :
    getEnv env2 k = getEnv env k := by
  unfold applyEnvPair at h
  have key : ∀ X : String,
      some (if getEnv env k0 = "" then setEnv env k0 X else env) = some env2 →
      getEnv env2 k = getEnv env k := by
    intro X hX
    by_cases h0 : getEnv env k0 = ""
    · rw [if_pos h0] at hX
      injection hX with hX
      subst hX
      by_cases hk : k0 = k
      · subst hk
        exact absurd h0 hset
      · exact getEnv_setEnv_other env k0 k X hk
    · rw [if_neg h0] at hX
      injection hX with hX
      subst hX
      rfl
  split at h
  · split at h
    · exact Option.noConfusion h
    · exact key _ h
  · exact key _ h

/-- A `loadEnvFile` line never changes a variable that already reads
nonempty. -/
theorem processEnvLine_preserve (env env2 : Env) (line k : String)
    (hset : getEnv env k ≠ "") (h : processEnvLine env line = some env2) :
    getEnv env2 k = getEnv env k := by
  unfold processEnvLine at h
  dsimp only at h
  split at h
  · injection h with h
    subst h
    rfl
  · split at h
    · injection h with h
      subst h
      rfl
    · exact applyEnvPair_preserve env env2 _ _ k hset h

/-- The whole dotfile never changes a variable that already reads
nonempty. -/
theorem loadEnvLines_preserve (lines : List String) (env env2 : Env) (k : String)
    (hset : getEnv env k ≠ "") (h : loadEnvLines env lines = some env2) :
    getEnv env2 k = getEnv env k := by
  induction lines generalizing env with
  | nil =>
    simp [loadEnvLines] at h
    subst h
    rfl
  | cons l ls ih =>
    unfold loadEnvLines at h
    split at h
    · exact Option.noConfusion h
    · rename_i envMid hMid
      have h1 := processEnvLine_preserve env envMid l k hset hMid
      have h2 : getEnv envMid k ≠ "" := by
        rw [h1]
        exact hset
      rw [ih envMid h2 h, h1]

/-- Counterexample to C8 as stated: with `PORT=abc` in the environment and
an empty dotfile, the key is defined in the environment and yet the
built-in default port 8080 applies, because `strconv.Atoi` fails and the
source falls back to the default. -/
theorem C8_counterexample :
    getEnv [("PORT", "abc")] "PORT" ≠ ""
    ∧ loadConfigWithDotfile [("PORT", "abc")] [] = some (loadConfig [("PORT", "abc")])
    ∧ (loadConfig [("PORT", "abc")]).port = 8080 :=
  ⟨by decide, rfl, by decide⟩

/-- C8 (amended). The dotfile loader skips blank and `#` lines; a
`KEY=VALUE` line becomes a trimmed pair step; a pair step whose value is
not a lone quote character strips one pair of matching surrounding quotes
and sets the key exactly when the key reads empty, so an existing
environment variable takes precedence over the dotfile; a lone quote
value makes the loader panic (modelled as `none`); and the built-in
defaults apply when the key reads empty — for the numeric keys `PORT` and
`TURN_PORT` also when the value fails integer parsing — while a parsable
or nonempty value is taken as given. -/
theorem C8_amended :
    (∀ (env : Env) (rawLine : String),
        goTrim rawLine = "" ∨ goHasPrefix (goTrim rawLine) "#" = true →
        processEnvLine env rawLine = some env)
    ∧ (∀ (env : Env) (rawLine k v : String),
        ¬(goTrim rawLine = "" ∨ goHasPrefix (goTrim rawLine) "#" = true) →
        splitEq2 (goTrim rawLine) = some (k, v) →
        processEnvLine env rawLine = applyEnvPair env (goTrim k) (goTrim v))
    ∧ (∀ (env : Env) (k v : String),
        ¬(hasOuterQuotes v = true ∧ v.length = 1) →
        (getEnv env k = "" →
          applyEnvPair env k v = some (setEnv env k (stripOuterQuotes v))
            ∧ getEnv (setEnv env k (stripOuterQuotes v)) k = stripOuterQuotes v)
        ∧ (getEnv env k ≠ "" → applyEnvPair env k v = some env))
    ∧ (∀ (env : Env) (k : String),
        applyEnvPair env k dquote = none ∧ applyEnvPair env k squote = none)
    ∧ (∀ (env env2 : Env) (lines : List String) (k : String),
        getEnv env k ≠ "" → loadEnvLines env lines = some env2 →
        getEnv env2 k = getEnv env k)
    ∧ (∀ env : Env,
        ((goAtoi (getEnv env "PORT")).isNone = true → (loadConfig env).port = 8080)
        ∧ (∀ n : Int, goAtoi (getEnv env "PORT") = some n → (loadConfig env).port = n)
        ∧ ((goAtoi (getEnv env "TURN_PORT")).isNone = true →
            (loadConfig env).turnConfig.port = 3478)
        ∧ (∀ n : Int, goAtoi (getEnv env "TURN_PORT") = some n →
            (loadConfig env).turnConfig.port = n)
        ∧ (getEnv env "TURN_USERNAME" = "" →
            (loadConfig env).turnConfig.username = "chuan")
        ∧ (getEnv env "TURN_USERNAME" ≠ "" →
            (loadConfig env).turnConfig.username = getEnv env "TURN_USERNAME")) := by
  refine ⟨?_, ?_, ?_, ?_, ?_, ?_⟩
  · intro env rawLine h
    unfold processEnvLine
    dsimp only
    rw [if_pos h]
  · intro env rawLine k v h hsp
    unfold processEnvLine
    dsimp only
    rw [if_neg h, hsp]
  · intro env k v hv
    constructor
    · intro h0
      have hs : applyEnvPair env k v = some (setEnv env k (stripOuterQuotes v)) := by
        by_cases hq : hasOuterQuotes v = true
        · have hl : ¬ v.length = 1 := fun hl => hv ⟨hq, hl⟩
          simp [applyEnvPair, stripOuterQuotes, hq, hl, h0]
        · simp [applyEnvPair, stripOuterQuotes, hq, h0]
      exact ⟨hs, getEnv_setEnv_same env k (stripOuterQuotes v)⟩
    · intro h0
      by_cases hq : hasOuterQuotes v = true
      · have hl : ¬ v.length = 1 := fun hl => hv ⟨hq, hl⟩
        simp [applyEnvPair, hq, hl, h0]
      · simp [applyEnvPair, hq, h0]
  · intro env k
    have hq1 : hasOuterQuotes dquote = true := by decide
    have hq2 : hasOuterQuotes squote = true := by decide
    have hl1 : dquote.length = 1 := by decide
    have hl2 : squote.length = 1 := by decide
    constructor
    · simp [applyEnvPair, hq1, hl1]
    · simp [applyEnvPair, hq2, hl2]
  · intro env env2 lines k h1 h2
    exact loadEnvLines_preserve lines env env2 k h1 h2
  · intro env
    refine ⟨?_, ?_, ?_, ?_, ?_, ?_⟩
    · intro h
      have hn : goAtoi (getEnv env "PORT") = none := Option.isNone_iff_eq_none.mp h
      simp [loadConfig, hn]
    · intro n hn
      have hne : getEnv env "PORT" ≠ "" := by
        intro h0
        rw [h0, show goAtoi "" = none from rfl] at hn
        exact Option.noConfusion hn
      simp [loadConfig, hne, hn]
    · intro h
      have hn : goAtoi (getEnv env "TURN_PORT") = none := Option.isNone_iff_eq_none.mp h
      simp [loadConfig, hn]
    · intro n hn
      have hne : getEnv env "TURN_PORT" ≠ "" := by
        intro h0
        rw [h0, show goAtoi "" = none from rfl] at hn
        exact Option.noConfusion hn
      simp [loadConfig, hne, hn]
    · intro h
      simp [loadConfig, h]
    · intro h
      simp [loadConfig, h]

/-- Witness for C8 (amended) at concrete inputs: a comment line is
skipped, a `KEY=VALUE` line becomes a pair step, quotes are stripped when
setting an unset key, a set key is kept, a lone double quote panics, the
dotfile cannot override an existing variable, a parsable `PORT` wins and
an absent `TURN_USERNAME` falls back to `chuan`. -/
theorem C8_witness :
    processEnvLine [("PORT", "8080")] "# comment" = some [("PORT", "8080")]
    ∧ processEnvLine [] "TURN_USERNAME=alice"
        = applyEnvPair [] (goTrim "TURN_USERNAME") (goTrim "alice")
    ∧ applyEnvPair [] "K" (dquote ++ "alice" ++ dquote)
        = some (setEnv [] "K" (stripOuterQuotes (dquote ++ "alice" ++ dquote)))
    ∧ applyEnvPair [("K", "x")] "K" "y" = some [("K", "x")]
    ∧ applyEnvPair [] "K" dquote = none
    ∧ getEnv [("B", "y"), ("A", "x")] "A" = getEnv [("A", "x")] "A"
    ∧ (loadConfig [("PORT", "3000")]).port = 3000
    ∧ (loadConfig [("PORT", "3000")]).turnConfig.username = "chuan" :=
  ⟨C8_amended.1 [("PORT", "8080")] "# comment" (by decide),
   C8_amended.2.1 [] "TURN_USERNAME=alice" "TURN_USERNAME" "alice" (by decide) (by decide),
   ((C8_amended.2.2.1 [] "K" (dquote ++ "alice" ++ dquote) (by decide)).1 rfl).1,
   (C8_amended.2.2.1 [("K", "x")] "K" "y" (by decide)).2 (by decide),
   (C8_amended.2.2.2.1 [] "K").1,
   C8_amended.2.2.2.2.1 [("A", "x")] [("B", "y"), ("A", "x")] ["B=y"] "A"
     (by decide) (by decide),
   (C8_amended.2.2.2.2.2 [("PORT", "3000")]).2.1 3000 (by decide),
   (C8_amended.2.2.2.2.2 [("PORT", "3000")]).2.2.2.2.1 (by decide)⟩
